import Mathlib

/-!
Shallow embedding of the tool, guardrail and response-extraction logic of
`multi_tool_agent` (files `common.py` and `agent.py`), together with proofs
of the behavioural claims about them.

Strings model Python `str` (the source only ever case-folds ASCII letters,
which matches `Char.toLower`/`Char.toUpper`).  Temperatures are carried in
tenths of a degree as integers: every temperature the code can build from its
static three-entry table (`25`, `15`, `18` Celsius and their Fahrenheit
images `77.0`, `59.0`, `64.4`) is exactly representable in tenths, so integer
round-half-even on tenths coincides with Python float `:.0f` formatting on
every reachable value.
-/

namespace Adk

/-- Python `str.lower()` (ASCII case folding, as in the source). -/
def pyLower (s : String) : String := ⟨s.data.map Char.toLower⟩

/-- Python `str.upper()` (ASCII case folding, as in the source). -/
def pyUpper (s : String) : String := ⟨s.data.map Char.toUpper⟩

/-- Python `str.capitalize()`: first character uppercased, the rest lowercased. -/
def pyCapitalize (s : String) : String :=
  match s.data with
  | [] => ""
  | c :: rest => ⟨c.toUpper :: rest.map Char.toLower⟩

/-- `city.lower().replace(" ", "")` — the input normalization both weather
tools apply.  Replacing every occurrence of the one-character pattern
`" "` by the empty string is exactly filtering the spaces out. -/
def normalizeCity (city : String) : String :=
  ⟨(pyLower city).data.filter (fun c => c ≠ ' ')⟩

/-- Python substring membership `pat in s`, on character lists. -/
def hasSubList (pat : List Char) : List Char → Bool
  | [] => pat.isEmpty
  | c :: rest => pat.isPrefixOf (c :: rest) || hasSubList pat rest

/-- Python substring membership `pat in s` on strings. -/
def strContainsSub (s pat : String) : Bool := hasSubList pat.data s.data

/-- A value stored in ADK session state; the source stores strings
(unit preference, last city) and the boolean guardrail flag. -/
inductive Value : Type where
  | str : String → Value
  | bool : Bool → Value
deriving DecidableEq

/-- Session state: insertion-ordered key/value pairs, modelling the Python
dict held in `tool_context.state` / `callback_context.state`. -/
abbrev SessionState : Type := List (String × Value)

/-- Python `dict.get(k)` (returns `None` when absent). -/
def stateGet : SessionState → String → Option Value
  | [], _ => none
  | (k, v) :: rest, key => if k = key then some v else stateGet rest key

/-- Python `dict[k] = v`: overwrite in place when the key exists, append
otherwise (insertion order preserved). -/
def stateSet : SessionState → String → Value → SessionState
  | [], key, v => [(key, v)]
  | (k, w) :: rest, key, v =>
    if k = key then (key, v) :: rest else (k, w) :: stateSet rest key v

/-- The dictionary shape every tool in the source returns: a `status`
string plus optional `report` and `error_message` keys (absent key =
`none`). -/
structure ToolDict where
  status : String
  report : Option String
  error_message : Option String
deriving DecidableEq

/-- Association-list lookup, modelling `db[key]` after a `key in db` test. -/
def lookupTable {α : Type} : List (String × α) → String → Option α
  | [], _ => none
  | (k, v) :: rest, key => if k = key then some v else lookupTable rest key

/-- `mock_weather_db` of `get_weather`: full canned result dictionaries. -/
def mock_weather_db : List (String × ToolDict) :=
  [("newyork", ⟨"success", some "The weather in New York is sunny with a temperature of 25°C.", none⟩),
   ("london", ⟨"success", some "It\x27s cloudy in London with a temperature of 15°C.", none⟩),
   ("tokyo", ⟨"success", some "Tokyo is experiencing light rain and a temperature of 18°C.", none⟩)]

/-- `get_weather` from `common.py` / `agent.py` (both copies are identical):
normalize the city, look it up in the static table, and fall back to the
error dictionary naming the raw input city. -/
def get_weather (city : String) : ToolDict :=
  match lookupTable mock_weather_db (normalizeCity city) with
  | some d => d
  | none =>
    ⟨"error", none, some ("Sorry, I don\x27t have weather information for \x27" ++ city ++ "\x27.")⟩

/-- One row of the stateful tool's table: Celsius temperature and condition. -/
structure WeatherData where
  temp_c : Int
  condition : String
deriving DecidableEq

/-- `mock_weather_db` of `get_weather_stateful` (Celsius data). -/
def mock_weather_db_stateful : List (String × WeatherData) :=
  [("newyork", ⟨25, "sunny"⟩), ("london", ⟨15, "cloudy"⟩), ("tokyo", ⟨18, "light rain"⟩)]

/-- Round-half-even of `n/10` for an integer number of tenths — Python
`:.0f` on every value the tool can reach (all its temperatures are exact
in tenths). -/
def roundHalfEvenTenths (n : Int) : Int :=
  let q := n / 10
  let r := n % 10
  if r < 5 then q else if 5 < r then q + 1 else if q % 2 = 0 then q else q + 1

/-- Decimal rendering of a natural number (fuel-based, enough fuel for any
input). -/
def natDecimal : Nat → Nat → List Char
  | 0, _ => []
  | fuel + 1, n =>
    if n < 10 then [Nat.digitChar n]
    else natDecimal fuel (n / 10) ++ [Nat.digitChar (n % 10)]

/-- Python `f"{x:.0f}"` for a temperature carried in tenths of a degree. -/
def formatTemp0f (tenths : Int) : String :=
  let r := roundHalfEvenTenths tenths
  if r < 0 then ⟨'-' :: natDecimal (r.natAbs + 1) r.natAbs⟩
  else ⟨natDecimal (r.toNat + 1) r.toNat⟩

/-- `get_weather_stateful` from `common.py`: read the unit preference from
session state (default `"Celsius"`), look the normalized city up, format the
report in the preferred unit, and on success write the raw city back under
`last_city_checked_stateful`.  Returns the result dictionary together with
the session state after the call. -/
def get_weather_stateful (city : String) (state : SessionState) :
    ToolDict × SessionState :=
  let preferred_unit := (stateGet state "user_preference_temperature_unit").getD (Value.str "Celsius")
  match lookupTable mock_weather_db_stateful (normalizeCity city) with
  | some data =>
    let tempTenths := if preferred_unit = Value.str "Fahrenheit"
      then data.temp_c * 18 + 320 else data.temp_c * 10
    let tempUnit := if preferred_unit = Value.str "Fahrenheit" then "°F" else "°C"
    let report := "The weather in " ++ pyCapitalize city ++ " is " ++ data.condition ++
      " with a temperature of " ++ formatTemp0f tempTenths ++ tempUnit ++ "."
    (⟨"success", some report, none⟩,
     stateSet state "last_city_checked_stateful" (Value.str city))
  | none =>
    (⟨"error", none, some ("Sorry, I don\x27t have weather information for \x27" ++ city ++ "\x27.")⟩,
     state)

/-- `get_current_time` from `common.py`.  The wall clock and `strftime`
formatting are outside the embedding: `clock` maps a timezone identifier to
the formatted current-time string `now.strftime("%Y-%m-%d %H:%M:%S %Z%z")`. -/
def get_current_time (city : String) (clock : String → String) : ToolDict :=
  if pyLower city = "new york" then
    ⟨"success", some ("The current time in " ++ city ++ " is " ++ clock "America/New_York"), none⟩
  else if pyLower city = "tokyo" then
    ⟨"success", some ("The current time in " ++ city ++ " is " ++ clock "Asia/Tokyo"), none⟩
  else if pyLower city = "london" then
    ⟨"success", some ("The current time in " ++ city ++ " is " ++ clock "Europe/London"), none⟩
  else
    ⟨"error", none, some ("Sorry, I don\x27t have timezone information for " ++ city ++ ".")⟩

/-- `google.genai.types.Part`: only the `text` field is read by the source
(`None` ↦ `none`). -/
structure Part where
  text : Option String
deriving DecidableEq

/-- `google.genai.types.Content`: a role plus a list of parts. -/
structure Content where
  role : String
  parts : List Part
deriving DecidableEq

/-- The text the guardrail loop extracts from one content entry: the first
part's text when the parts list is nonempty and that text is truthy
(non-`None` and nonempty); `none` otherwise, in which case the loop keeps
scanning. -/
def firstPartText (c : Content) : Option String :=
  match c.parts with
  | [] => none
  | p :: _ =>
    match p.text with
    | some t => if t = "" then none else some t
    | none => none

/-- The reverse scan of `block_keyword_guardrail`, after the history has
been reversed: the first entry with role `"user"` and truthy first-part
text yields that text; otherwise the scan continues, ending at `""`. -/
def findLastUser : List Content → String
  | [] => ""
  | c :: rest =>
    if c.role = "user" then
      match firstPartText c with
      | some t => t
      | none => findLastUser rest
    else findLastUser rest

/-- `last_user_message_text` as computed by `block_keyword_guardrail` over
`llm_request.contents`. -/
def lastUserMessageText (contents : List Content) : String :=
  findLastUser contents.reverse

/-- The fixed refusal text of the guardrail
(`keyword_to_block = "BLOCK"` interpolated into the f-string). -/
def refusalText : String :=
  "I cannot process this request because it contains the blocked keyword \x27BLOCK\x27."

/-- `block_keyword_guardrail` from `common.py`: extract the latest user
message text, upper-case it and test for the substring `"BLOCK"`.
On a hit, set the state flag and return the canned model response
(the `content` of the returned `LlmResponse`); otherwise return `None`.
The pair also carries the session state after the call. -/
def block_keyword_guardrail (contents : List Content) (state : SessionState) :
    Option Content × SessionState :=
  let last_user_message_text := lastUserMessageText contents
  if strContainsSub (pyUpper last_user_message_text) "BLOCK" then
    (some ⟨"model", [⟨some refusalText⟩]⟩,
     stateSet state "guardrail_block_keyword_triggered" (Value.bool true))
  else
    (none, state)

/-- `EventActions`: only `escalate` is read by `call_agent_async`. -/
structure EventActions where
  escalate : Bool
deriving DecidableEq

/-- An ADK event as consumed by `call_agent_async`: optional content,
optional actions, optional error message, and the value of
`is_final_response()`. -/
structure Event where
  content : Option Content
  actions : Option EventActions
  error_message : Option String
  is_final : Bool
deriving DecidableEq

/-- Python `event.error_message or "No specific message."`. -/
def errMsgOrDefault : Option String → String
  | some m => if m = "" then "No specific message." else m
  | none => "No specific message."

/-- The default final-response text `call_agent_async` starts from. -/
def noResponseText : String := "Agent did not produce a final response."

/-- What the final event leaves in `final_response_text` when its content
has no parts (or no content at all): the escalation message when
`event.actions and event.actions.escalate`, else the untouched default. -/
def escalationOrDefault (e : Event) : Option String :=
  match e.actions with
  | some a =>
    if a.escalate then
      some ("Agent escalated: " ++ errMsgOrDefault e.error_message)
    else some noResponseText
  | none => some noResponseText

/-- `final_response_text` after the branch on the final event: the first
part's text when `event.content and event.content.parts` is truthy
(that text may itself be `None`), else the escalation check. -/
def finalEventText (e : Event) : Option String :=
  match e.content with
  | some c =>
    match c.parts with
    | p :: _ => p.text
    | [] => escalationOrDefault e
  | none => escalationOrDefault e

/-- The value of `final_response_text` at the end of `call_agent_async`'s
event loop: the loop breaks at the first event with
`is_final_response()`, and keeps the default when no event is final. -/
def finalResponseText : List Event → Option String
  | [] => some noResponseText
  | e :: rest => if e.is_final then finalEventText e else finalResponseText rest

/-- The documented shape of every tool result: exactly one variant
populated — `success` with a report and no error message, or `error` with
an error message and no report. -/
def ToolResultInvariant (d : ToolDict) : Prop :=
  (d.status = "success" ∧ d.report.isSome = true ∧ d.error_message = none) ∨
  (d.status = "error" ∧ d.error_message.isSome = true ∧ d.report = none)

theorem isPrefixOf_append_self (l t : List Char) : l.isPrefixOf (l ++ t) = true := by
  induction l with
  | nil => simp [List.isPrefixOf]
  | cons c cs ih => simp [List.isPrefixOf, ih]

theorem hasSubList_nil_pat (s : List Char) : hasSubList [] s = true := by
  cases s <;> rfl

theorem hasSubList_append (a p b : List Char) : hasSubList p (a ++ (p ++ b)) = true := by
  induction a with
  | nil =>
    cases p with
    | nil => exact hasSubList_nil_pat b
    | cons c cs => simp [hasSubList, isPrefixOf_append_self]
  | cons x xs ih => simp [hasSubList, ih]

theorem strContainsSub_surround (a s b : String) : strContainsSub (a ++ s ++ b) s = true := by
  show hasSubList s.data (a ++ s ++ b).data = true
  rw [String.data_append, String.data_append, List.append_assoc]
  exact hasSubList_append _ _ _

theorem stateGet_stateSet_same (st : SessionState) (k : String) (v : Value) :
    stateGet (stateSet st k v) k = some v := by
  induction st with
  | nil => simp [stateSet, stateGet]
  | cons p rest ih =>
    obtain ⟨k1, v1⟩ := p
    by_cases h : k1 = k
    · subst h; simp [stateSet, stateGet]
    · simp [stateSet, stateGet, h, ih]

theorem stateGet_stateSet_ne (st : SessionState) (k key : String) (v : Value)
    (h : k ≠ key) : stateGet (stateSet st k v) key = stateGet st key := by
  induction st with
  | nil => simp [stateSet, stateGet, h]
  | cons p rest ih =>
    obtain ⟨k1, v1⟩ := p
    by_cases h1 : k1 = k
    · subst h1; simp [stateSet, stateGet, h]
    · simp [stateSet, stateGet, h1, ih]

theorem stateSet_stateSet_same (st : SessionState) (k : String) (v : Value) :
    stateSet (stateSet st k v) k v = stateSet st k v := by
  induction st with
  | nil => simp [stateSet]
  | cons p rest ih =>
    obtain ⟨k1, v1⟩ := p
    by_cases h : k1 = k
    · subst h; simp [stateSet]
    · simp [stateSet, h, ih]

theorem mock_weather_db_entries (k : String) (d : ToolDict)
    (h : lookupTable mock_weather_db k = some d) :
    d.status = "success" ∧ d.report.isSome = true ∧ d.error_message = none := by
  simp only [mock_weather_db, lookupTable] at h
  split at h
  · cases h; exact ⟨rfl, rfl, rfl⟩
  · split at h
    · cases h; exact ⟨rfl, rfl, rfl⟩
    · split at h
      · cases h; exact ⟨rfl, rfl, rfl⟩
      · cases h

theorem get_weather_inv (city : String) : ToolResultInvariant (get_weather city) := by
  unfold get_weather
  rcases hl : lookupTable mock_weather_db (normalizeCity city) with _ | d
  · right; exact ⟨rfl, rfl, rfl⟩
  · left; exact mock_weather_db_entries _ _ hl

theorem get_weather_stateful_inv (city : String) (st : SessionState) :
    ToolResultInvariant ((get_weather_stateful city st).1) := by
  unfold get_weather_stateful
  rcases lookupTable mock_weather_db_stateful (normalizeCity city) with _ | d
  · right; exact ⟨rfl, rfl, rfl⟩
  · left; exact ⟨rfl, rfl, rfl⟩

theorem get_current_time_inv (city : String) (clock : String → String) :
    ToolResultInvariant (get_current_time city clock) := by
  unfold get_current_time
  split
  · left; exact ⟨rfl, rfl, rfl⟩
  · split
    · left; exact ⟨rfl, rfl, rfl⟩
    · split
      · left; exact ⟨rfl, rfl, rfl⟩
      · right; exact ⟨rfl, rfl, rfl⟩

theorem status_of_inv (d : ToolDict) (h : ToolResultInvariant d) :
    d.status = "success" ∨ d.status = "error" := by
  rcases h with h | h
  · exact Or.inl h.1
  · exact Or.inr h.1

/-- C3: for every input whose lowercased, space-stripped form is one of the
three static-table keys, `get_weather` returns exactly the canned success
dictionary of that entry; for every other input it returns the error variant
whose `error_message` contains the input city string verbatim. -/
theorem get_weather_correct (city : String) :
    (normalizeCity city = "newyork" →
      get_weather city = ⟨"success", some "The weather in New York is sunny with a temperature of 25°C.", none⟩) ∧
    (normalizeCity city = "london" →
      get_weather city = ⟨"success", some "It\x27s cloudy in London with a temperature of 15°C.", none⟩) ∧
    (normalizeCity city = "tokyo" →
      get_weather city = ⟨"success", some "Tokyo is experiencing light rain and a temperature of 18°C.", none⟩) ∧
    (normalizeCity city ≠ "newyork" → normalizeCity city ≠ "london" → normalizeCity city ≠ "tokyo" →
      (get_weather city).status = "error" ∧
      ∃ m, (get_weather city).error_message = some m ∧ strContainsSub m city = true) := by
  refine ⟨?_, ?_, ?_, ?_⟩
  · intro h; unfold get_weather; rw [h]; rfl
  · intro h; unfold get_weather; rw [h]; rfl
  · intro h; unfold get_weather; rw [h]; rfl
  · intro h1 h2 h3
    have hl : lookupTable mock_weather_db (normalizeCity city) = none := by
      simp [mock_weather_db, lookupTable, Ne.symm h1, Ne.symm h2, Ne.symm h3]
    unfold get_weather
    rw [hl]
    exact ⟨rfl, _, rfl,
      strContainsSub_surround "Sorry, I don\x27t have weather information for \x27" city "\x27."⟩

theorem get_weather_correct_witness :
    get_weather "New York" = ⟨"success", some "The weather in New York is sunny with a temperature of 25°C.", none⟩ ∧
    (get_weather "Paris").status = "error" := by
  refine ⟨(get_weather_correct "New York").1 (by decide), ?_⟩
  exact ((get_weather_correct "Paris").2.2.2 (by decide) (by decide) (by decide)).1

/-- C6: the three tool functions are total on their string input: every
input yields a result dictionary whose status is `"success"` or `"error"`,
and every unknown city yields the error variant (the embedding is a total
function — no path of the source raises for these inputs). -/
theorem tools_total (city : String) (st : SessionState) (clock : String → String) :
    ((get_weather city).status = "success" ∨ (get_weather city).status = "error") ∧
    ((get_weather_stateful city st).1.status = "success" ∨
      (get_weather_stateful city st).1.status = "error") ∧
    ((get_current_time city clock).status = "success" ∨
      (get_current_time city clock).status = "error") ∧
    (lookupTable mock_weather_db (normalizeCity city) = none →
      (get_weather city).status = "error") ∧
    (lookupTable mock_weather_db_stateful (normalizeCity city) = none →
      (get_weather_stateful city st).1.status = "error") ∧
    (pyLower city ≠ "new york" → pyLower city ≠ "tokyo" → pyLower city ≠ "london" →
      (get_current_time city clock).status = "error") := by
  refine ⟨status_of_inv _ (get_weather_inv city),
    status_of_inv _ (get_weather_stateful_inv city st),
    status_of_inv _ (get_current_time_inv city clock), ?_, ?_, ?_⟩
  · intro hl; unfold get_weather; rw [hl]
  · intro hl; unfold get_weather_stateful; rw [hl]
  · intro h1 h2 h3; simp [get_current_time, h1, h2, h3]

theorem tools_total_witness :
    (get_weather "Paris").status = "error" ∧
    (get_weather_stateful "Paris" []).1.status = "error" ∧
    (get_current_time "Paris" (fun _ => "12:00")).status = "error" := by
  have h := tools_total "Paris" [] (fun _ => "12:00")
  exact ⟨h.2.2.2.1 (by decide), h.2.2.2.2.1 (by decide),
    h.2.2.2.2.2 (by decide) (by decide) (by decide)⟩

/-- C7: every dictionary returned by `get_weather`, `get_weather_stateful`
and `get_current_time` populates exactly one variant: status `"success"`
with a report and no `error_message`, or status `"error"` with an
`error_message` and no report. -/
theorem tool_result_invariant (city : String) (st : SessionState) (clock : String → String) :
    ToolResultInvariant (get_weather city) ∧
    ToolResultInvariant ((get_weather_stateful city st).1) ∧
    ToolResultInvariant (get_current_time city clock) :=
  ⟨get_weather_inv city, get_weather_stateful_inv city st, get_current_time_inv city clock⟩

/-- C4: with the state preference set to `"Fahrenheit"` the stateful tool
reports `C*9/5+32` rounded to zero decimals (77, 59 and 64 for the three
table cities); with the preference key absent it defaults to Celsius and
reports the Celsius value unchanged. -/
theorem get_weather_stateful_units (st st2 : SessionState)
    (hF : stateGet st "user_preference_temperature_unit" = some (Value.str "Fahrenheit"))
    (hC : stateGet st2 "user_preference_temperature_unit" = none) :
    ((get_weather_stateful "New York" st).1.report =
      some "The weather in New york is sunny with a temperature of 77°F.") ∧
    ((get_weather_stateful "London" st).1.report =
      some "The weather in London is cloudy with a temperature of 59°F.") ∧
    ((get_weather_stateful "Tokyo" st).1.report =
      some "The weather in Tokyo is light rain with a temperature of 64°F.") ∧
    ((get_weather_stateful "New York" st2).1.report =
      some "The weather in New york is sunny with a temperature of 25°C.") ∧
    ((get_weather_stateful "London" st2).1.report =
      some "The weather in London is cloudy with a temperature of 15°C.") ∧
    ((get_weather_stateful "Tokyo" st2).1.report =
      some "The weather in Tokyo is light rain with a temperature of 18°C.") := by
  refine ⟨?_, ?_, ?_, ?_, ?_, ?_⟩ <;>
    simp only [get_weather_stateful, hF, hC, Option.getD_some, Option.getD_none] <;> rfl

theorem get_weather_stateful_units_witness :
    ((get_weather_stateful "New York"
        [("user_preference_temperature_unit", Value.str "Fahrenheit")]).1.report =
      some "The weather in New york is sunny with a temperature of 77°F.") ∧
    ((get_weather_stateful "Tokyo" []).1.report =
      some "The weather in Tokyo is light rain with a temperature of 18°C.") := by
  have h := get_weather_stateful_units
    [("user_preference_temperature_unit", Value.str "Fahrenheit")] [] (by decide) (by decide)
  exact ⟨h.1, h.2.2.2.2.2⟩

/-- C5: calling `get_weather_stateful` twice in a row with the same city and
no intervening state change gives the same result and the same final state
as the first call. -/
theorem get_weather_stateful_idempotent (city : String) (st : SessionState) :
    get_weather_stateful city (get_weather_stateful city st).2 = get_weather_stateful city st := by
  have hkey : ("last_city_checked_stateful" : String) ≠ "user_preference_temperature_unit" := by
    decide
  rcases hl : lookupTable mock_weather_db_stateful (normalizeCity city) with _ | data
  · simp only [get_weather_stateful, hl]
  · simp only [get_weather_stateful, hl]
    rw [stateGet_stateSet_ne _ _ _ _ hkey, stateSet_stateSet_same]

/-- C9: on an unknown city the stateful tool returns the error variant and
returns the session state exactly as it was given (nothing is written);
on a successful lookup it writes the raw input city under
`last_city_checked_stateful`. -/
theorem get_weather_stateful_atomic (city : String) (st : SessionState) :
    (lookupTable mock_weather_db_stateful (normalizeCity city) = none →
      get_weather_stateful city st =
        (⟨"error", none, some ("Sorry, I don\x27t have weather information for \x27" ++ city ++ "\x27.")⟩,
         st)) ∧
    (∀ d, lookupTable mock_weather_db_stateful (normalizeCity city) = some d →
      stateGet (get_weather_stateful city st).2 "last_city_checked_stateful" =
        some (Value.str city)) := by
  constructor
  · intro hl; simp only [get_weather_stateful, hl]
  · intro d hl
    simp only [get_weather_stateful, hl]
    exact stateGet_stateSet_same st _ _

theorem get_weather_stateful_atomic_witness :
    get_weather_stateful "Paris" [("k", Value.str "v")] =
      (⟨"error", none, some "Sorry, I don\x27t have weather information for \x27Paris\x27."⟩,
       [("k", Value.str "v")]) ∧
    stateGet (get_weather_stateful "Tokyo" []).2 "last_city_checked_stateful" =
      some (Value.str "Tokyo") := by
  refine ⟨(get_weather_stateful_atomic "Paris" [("k", Value.str "v")]).1 (by decide), ?_⟩
  exact (get_weather_stateful_atomic "Tokyo" []).2 ⟨18, "light rain"⟩ (by decide)

/-- C10: the unit-preference comparison is case-sensitive: any stored
preference value other than exactly the string `"Fahrenheit"` (for example
`"fahrenheit"` or `"FAHRENHEIT"`) makes the tool report in Celsius. -/
theorem unit_check_case_sensitive (st : SessionState) (u : Value)
    (hu : stateGet st "user_preference_temperature_unit" = some u)
    (hne : u ≠ Value.str "Fahrenheit") :
    ((get_weather_stateful "New York" st).1.report =
      some "The weather in New york is sunny with a temperature of 25°C.") ∧
    ((get_weather_stateful "London" st).1.report =
      some "The weather in London is cloudy with a temperature of 15°C.") ∧
    ((get_weather_stateful "Tokyo" st).1.report =
      some "The weather in Tokyo is light rain with a temperature of 18°C.") := by
  refine ⟨?_, ?_, ?_⟩ <;>
    simp only [get_weather_stateful, hu, Option.getD_some, if_neg hne] <;> rfl

theorem unit_check_case_sensitive_witness :
    ((get_weather_stateful "New York"
        [("user_preference_temperature_unit", Value.str "fahrenheit")]).1.report =
      some "The weather in New york is sunny with a temperature of 25°C.") ∧
    ((get_weather_stateful "London"
        [("user_preference_temperature_unit", Value.str "FAHRENHEIT")]).1.report =
      some "The weather in London is cloudy with a temperature of 15°C.") := by
  refine ⟨?_, ?_⟩
  · exact (unit_check_case_sensitive
      [("user_preference_temperature_unit", Value.str "fahrenheit")]
      (Value.str "fahrenheit") (by decide) (by decide)).1
  · exact (unit_check_case_sensitive
      [("user_preference_temperature_unit", Value.str "FAHRENHEIT")]
      (Value.str "FAHRENHEIT") (by decide) (by decide)).2.1

theorem strContainsSub_append_right (a s : String) : strContainsSub (a ++ s) s = true := by
  show hasSubList s.data (a ++ s).data = true
  rw [String.data_append]
  have h := hasSubList_append a.data s.data []
  rwa [List.append_nil] at h

theorem findLastUser_skip (l rest : List Content)
    (h : ∀ x ∈ l, x.role = "user" → firstPartText x = none) :
    findLastUser (l ++ rest) = findLastUser rest := by
  induction l with
  | nil => rfl
  | cons c cs ih =>
    have hcs : ∀ x ∈ cs, x.role = "user" → firstPartText x = none :=
      fun x hx => h x (List.mem_cons_of_mem c hx)
    by_cases hr : c.role = "user"
    · have hc := h c (List.mem_cons_self c cs) hr
      simp only [List.cons_append, findLastUser, hr, hc, if_true]
      exact ih hcs
    · simp only [List.cons_append, findLastUser, hr, if_false]
      exact ih hcs

theorem lastUserMessageText_eq (pre post : List Content) (c : Content) (t : String)
    (hrole : c.role = "user") (htext : firstPartText c = some t)
    (hpost : ∀ x ∈ post, x.role = "user" → firstPartText x = none) :
    lastUserMessageText (pre ++ c :: post) = t := by
  unfold lastUserMessageText
  rw [List.reverse_append, List.reverse_cons, List.append_assoc]
  rw [findLastUser_skip post.reverse ([c] ++ pre.reverse)
    (fun x hx => hpost x (List.mem_reverse.mp hx))]
  simp only [List.singleton_append, findLastUser, hrole, htext, if_true]

theorem finalResponseText_skip (l rest : List Event) (h : ∀ x ∈ l, x.is_final = false) :
    finalResponseText (l ++ rest) = finalResponseText rest := by
  induction l with
  | nil => rfl
  | cons x xs ih =>
    simp only [List.cons_append, finalResponseText, h x (List.mem_cons_self x xs),
      Bool.false_eq_true, if_false]
    exact ih (fun y hy => h y (List.mem_cons_of_mem x hy))

theorem finalResponseText_none (events : List Event) (h : ∀ x ∈ events, x.is_final = false) :
    finalResponseText events = some noResponseText := by
  induction events with
  | nil => rfl
  | cons x xs ih =>
    simp only [finalResponseText, h x (List.mem_cons_self x xs), Bool.false_eq_true, if_false]
    exact ih (fun y hy => h y (List.mem_cons_of_mem x hy))

/-- C1 fails as stated: in this history the latest user-authored turn has
text `""`, which does not contain `"block"` in any case, yet the guardrail
blocks because of the earlier user turn (the scan only stops at a user
entry whose first part carries nonempty text). -/
theorem guardrail_inspects_older_turns :
    ((([⟨"user", [⟨some "please BLOCK this request"⟩]⟩,
        ⟨"model", [⟨some "done"⟩]⟩,
        ⟨"user", [⟨some ""⟩]⟩] : List Content).getLast?).map Content.role = some "user") ∧
    strContainsSub (pyUpper "") "BLOCK" = false ∧
    (block_keyword_guardrail
      [⟨"user", [⟨some "please BLOCK this request"⟩]⟩,
       ⟨"model", [⟨some "done"⟩]⟩,
       ⟨"user", [⟨some ""⟩]⟩] []).1 ≠ none := by decide

/-- C1 (amended): the verdict depends only on the most recent user turn
carrying nonempty text: whenever that turn's text does not contain
`"block"` case-insensitively the guardrail returns Allow (`None`) with the
state untouched, no matter what earlier turns contained; a latest user turn
whose first-part text is empty or missing is skipped by the scan. -/
theorem guardrail_latest_only
    (pre post : List Content) (c : Content) (t : String) (st : SessionState)
    (hrole : c.role = "user") (htext : firstPartText c = some t)
    (hpost : ∀ x ∈ post, x.role = "user" → firstPartText x = none)
    (hnb : strContainsSub (pyUpper t) "BLOCK" = false) :
    block_keyword_guardrail (pre ++ c :: post) st = (none, st) := by
  unfold block_keyword_guardrail
  rw [lastUserMessageText_eq pre post c t hrole htext hpost]
  simp [hnb]

theorem guardrail_latest_only_witness :
    block_keyword_guardrail
      [⟨"user", [⟨some "please BLOCK this request"⟩]⟩,
       ⟨"user", [⟨some "hello there"⟩]⟩] [] = (none, []) :=
  guardrail_latest_only [⟨"user", [⟨some "please BLOCK this request"⟩]⟩] []
    ⟨"user", [⟨some "hello there"⟩]⟩ "hello there" [] rfl (by decide) (by simp) (by decide)

/-- C2: whenever the most recent user message text contains `"block"` in
any letter case, the guardrail returns the blocking response whose text is
the fixed refusal message and sets the state flag
`guardrail_block_keyword_triggered` to `True`. -/
theorem guardrail_blocks
    (pre post : List Content) (c : Content) (t : String) (st : SessionState)
    (hrole : c.role = "user") (htext : firstPartText c = some t)
    (hpost : ∀ x ∈ post, x.role = "user" → firstPartText x = none)
    (hb : strContainsSub (pyUpper t) "BLOCK" = true) :
    block_keyword_guardrail (pre ++ c :: post) st =
      (some ⟨"model", [⟨some refusalText⟩]⟩,
       stateSet st "guardrail_block_keyword_triggered" (Value.bool true)) ∧
    refusalText =
      "I cannot process this request because it contains the blocked keyword \x27BLOCK\x27." := by
  refine ⟨?_, rfl⟩
  unfold block_keyword_guardrail
  rw [lastUserMessageText_eq pre post c t hrole htext hpost]
  simp [hb]

theorem guardrail_blocks_witness :
    block_keyword_guardrail [⟨"user", [⟨some "please block this"⟩]⟩] [] =
      (some ⟨"model", [⟨some refusalText⟩]⟩,
       [("guardrail_block_keyword_triggered", Value.bool true)]) :=
  (guardrail_blocks [] [] ⟨"user", [⟨some "please block this"⟩]⟩ "please block this" []
    rfl (by decide) (by simp) (by decide)).1

/-- C8: when the final event of a turn has no content parts and signals
escalation, the caller receives `"Agent escalated: "` followed by the
engine's error message, which therefore appears verbatim in the final
response text; and when no final event is produced at all the caller
receives the default text. -/
theorem call_agent_async_final
    (pre rest events : List Event) (e : Event) (msg : String)
    (hpre : ∀ x ∈ pre, x.is_final = false)
    (hfin : e.is_final = true)
    (hparts : e.content = none ∨ ∃ c, e.content = some c ∧ c.parts = [])
    (hesc : ∃ a, e.actions = some a ∧ a.escalate = true)
    (hmsg : e.error_message = some msg) (hne : msg ≠ "")
    (hnofinal : ∀ x ∈ events, x.is_final = false) :
    finalResponseText (pre ++ e :: rest) = some ("Agent escalated: " ++ msg) ∧
    strContainsSub ("Agent escalated: " ++ msg) msg = true ∧
    finalResponseText events = some "Agent did not produce a final response." := by
  refine ⟨?_, strContainsSub_append_right "Agent escalated: " msg,
    finalResponseText_none events hnofinal⟩
  rw [finalResponseText_skip pre (e :: rest) hpre]
  simp only [finalResponseText, hfin, if_true]
  obtain ⟨a, ha, haesc⟩ := hesc
  rcases hparts with hc | ⟨c, hc, hcp⟩
  · simp [finalEventText, hc, escalationOrDefault, ha, haesc, errMsgOrDefault, hmsg, hne]
  · simp [finalEventText, hc, hcp, escalationOrDefault, ha, haesc, errMsgOrDefault, hmsg, hne]

theorem call_agent_async_final_witness :
    finalResponseText [⟨none, some ⟨true⟩, some "Engine gave up", true⟩] =
      some "Agent escalated: Engine gave up" ∧
    finalResponseText [⟨some ⟨"model", [⟨some "hi"⟩]⟩, none, none, false⟩] =
      some "Agent did not produce a final response." := by
  have h := call_agent_async_final [] [] [⟨some ⟨"model", [⟨some "hi"⟩]⟩, none, none, false⟩]
    ⟨none, some ⟨true⟩, some "Engine gave up", true⟩ "Engine gave up"
    (by simp) rfl (Or.inl rfl) ⟨⟨true⟩, rfl, rfl⟩ rfl (by decide) (by simp)
  exact ⟨h.1, h.2.2⟩

end Adk
